import Mathlib

/-!
Shallow embedding of the AI-Employee automation system (Python sources under
`scripts/`): risk classifier, task analyzer, approval workflow, event queue,
step executor and the orchestrator's event-processing loop, together with
theorems settling the specification claims about them.
-/

namespace AIEmployee

/-! ### Python string primitives

Python `str.lower()` and the substring operator `in`, modelled on ASCII
character lists (the keyword tables in the sources are all ASCII). -/

/-- Python `str.lower()`: lowercase every character (ASCII). -/
def pyLower (s : String) : String :=
  String.mk (s.data.map Char.toLower)

/-- `needle` occurs as a contiguous substring of `hay` (Python `needle in hay`). -/
def isInfixB : List Char → List Char → Bool
  | needle, [] => needle.isEmpty
  | needle, c :: t => needle.isPrefixOf (c :: t) || isInfixB needle t

/-- Python `needle in hay` for strings. -/
def strContains (hay needle : String) : Bool :=
  isInfixB needle.data hay.data

/-! ### risk_classifier.py -/

inductive RiskLevel
  | low
  | medium
  | high
deriving DecidableEq, Repr

/-- `RiskClassifier.HIGH_RISK_KEYWORDS`. -/
def HIGH_RISK_KEYWORDS : List String :=
  ["payment", "transfer", "invoice", "legal", "contract",
   "medical", "health", "condolence", "lawsuit", "terminate",
   "delete", "remove", "destroy", "cancel", "refund"]

/-- `RiskClassifier.MEDIUM_RISK_KEYWORDS`. -/
def MEDIUM_RISK_KEYWORDS : List String :=
  ["email", "send", "post", "publish", "share", "reply",
   "new contact", "unknown", "first time", "external",
   "public", "broadcast", "announce"]

/-- `RiskClassifier.SENSITIVE_CONTEXTS`. -/
def SENSITIVE_CONTEXTS : List String :=
  ["emotional", "conflict", "negotiation", "complaint",
   "dispute", "disagreement", "criticism", "feedback"]

/-- `RiskClassifier.PAYMENT_THRESHOLD_HIGH` (USD). -/
def PAYMENT_THRESHOLD_HIGH : Int := 500

/-- `RiskClassifier.PAYMENT_THRESHOLD_MEDIUM` (USD). -/
def PAYMENT_THRESHOLD_MEDIUM : Int := 50

/-- The metadata fields `RiskClassifier.classify` reads, with the Python
`metadata.get(key, default)` defaults folded in: `amount` defaults to `0`,
`new_payee` to `False`, `contact_history` to `"unknown"`. -/
structure RCMetadata where
  amount : Int := 0
  new_payee : Bool := false
  contact_history : String := "unknown"
deriving DecidableEq, Repr

/-- First keyword of `kws` occurring in the (already lowercased) content,
mirroring the `for keyword in ...: if keyword in content_lower` scans. -/
def findKeyword (kws : List String) (contentLower : String) : Option String :=
  kws.find? (fun k => strContains contentLower k)

/-- `RiskClassifier.classify(action_type, content, metadata)`. -/
def classify (action_type content : String) (metadata : RCMetadata) :
    RiskLevel × String :=
  let content_lower := pyLower content
  match findKeyword HIGH_RISK_KEYWORDS content_lower with
  | some keyword => (RiskLevel.high, "Contains high-risk keyword: " ++ keyword)
  | none =>
    if action_type = "payment" ∧ metadata.amount > PAYMENT_THRESHOLD_HIGH then
      (RiskLevel.high,
        "Payment amount $" ++ toString metadata.amount ++
        " exceeds high threshold ($" ++ toString PAYMENT_THRESHOLD_HIGH ++ ")")
    else if action_type = "payment" ∧ metadata.new_payee then
      (RiskLevel.high, "New payee requires approval")
    else if action_type = "payment" ∧ metadata.amount > PAYMENT_THRESHOLD_MEDIUM then
      (RiskLevel.medium,
        "Payment amount $" ++ toString metadata.amount ++
        " exceeds medium threshold ($" ++ toString PAYMENT_THRESHOLD_MEDIUM ++ ")")
    else
      match findKeyword MEDIUM_RISK_KEYWORDS content_lower with
      | some keyword => (RiskLevel.medium, "Contains medium-risk keyword: " ++ keyword)
      | none =>
        match findKeyword SENSITIVE_CONTEXTS content_lower with
        | some context => (RiskLevel.medium, "Sensitive context detected: " ++ context)
        | none =>
          if action_type = "linkedin_post" ∨ action_type = "twitter_post" ∨
              action_type = "facebook_post" then
            (RiskLevel.medium, "Social media post requires approval")
          else if action_type = "email_send" ∧ metadata.contact_history = "new" then
            (RiskLevel.medium, "Email to new contact requires approval")
          else if action_type = "file_delete" then
            (RiskLevel.high, "File deletion is irreversible and requires approval")
          else
            (RiskLevel.low, "No risk indicators detected")

/-! ### task_analyzer.py -/

/-- `TaskAnalyzer.urgent_keywords`. -/
def urgent_keywords : List String :=
  ["urgent", "asap", "immediately", "critical", "emergency",
   "important", "priority", "deadline", "time-sensitive"]

/-- `TaskAnalyzer.sales_keywords`. -/
def sales_keywords : List String :=
  ["pricing", "quote", "proposal", "interested", "purchase",
   "buy", "cost", "demo", "trial", "consultation", "meeting"]

/-- `TaskAnalyzer.support_keywords`. -/
def support_keywords : List String :=
  ["help", "issue", "problem", "error", "bug", "not working",
   "broken", "question", "how to", "support", "assistance"]

/-- `TaskAnalyzer.complaint_keywords`. -/
def complaint_keywords : List String :=
  ["complaint", "unhappy", "disappointed", "frustrated", "angry",
   "unacceptable", "poor", "terrible", "worst", "refund"]

/-- `TaskAnalyzer.routine_keywords`. -/
def routine_keywords : List String :=
  ["weekly", "daily", "monthly", "scheduled", "regular",
   "recurring", "automated", "routine", "periodic"]

/-- Python `any(keyword in content for keyword in kws)`. -/
def containsAny (kws : List String) (content : String) : Bool :=
  kws.any (fun k => strContains content k)

/-- `TaskAnalyzer._classify_category(content, metadata)`; `metadata` is unused
by the source body. `content` is the already-lowercased event content. -/
def classify_category (content : String) : String :=
  if containsAny routine_keywords content then "routine"
  else if containsAny complaint_keywords content then "complaint"
  else if containsAny sales_keywords content then "sales"
  else if containsAny support_keywords content then "support"
  else "general"

/-- `TaskAnalyzer._classify_priority(content, metadata, category)`; of
`metadata` only `metadata.get('priority')` is read (here `metaPriority`). -/
def classify_priority (content : String) (metaPriority : Option String)
    (category : String) : String :=
  if containsAny urgent_keywords content then "urgent"
  else if category = "complaint" then "high"
  else if category = "sales" then "high"
  else if category = "support" then "medium"
  else if category = "routine" then "low"
  else if metaPriority = some "high" then "high"
  else "medium"

/-- `TaskAnalyzer._classify_complexity(content, metadata, category, priority)`;
`metadata` is unused by the source body. -/
def classify_complexity (content : String) (category priority : String) : String :=
  if priority = "urgent" then "critical"
  else if category = "complaint" then "complex"
  else if category = "sales" then "complex"
  else if category = "routine" then "routine"
  else if category = "support" then
    (if content.length > 500 then "complex" else "simple")
  else if content.length > 300 then "complex"
  else "simple"

/-- The fields of the `TaskAnalyzer.analyze_event` result dictionary that the
claims and the orchestrator read.  Note the dictionary carries no
`requires_approval` key. -/
structure Analysis where
  category : String
  priority : String
  complexity : String
  requires_plan : Bool
deriving DecidableEq, Repr

/-- `TaskAnalyzer.analyze_event(event)` restricted to the classification
fields: `content = event.get('content', '').lower()` and
`metaPriority = event.get('metadata', {}).get('priority')`. -/
def analyze_event (rawContent : String) (metaPriority : Option String) : Analysis :=
  let content := pyLower rawContent
  let category := classify_category content
  let priority := classify_priority content metaPriority category
  let complexity := classify_complexity content category priority
  { category := category
    priority := priority
    complexity := complexity
    requires_plan := complexity = "complex" ∨ complexity = "critical" }

/-! ### approval_workflow.py -/

/-- The statuses `ApprovalWorkflow.check_approval_status` can return. -/
inductive ApprovalStatus
  | approved
  | rejected
  | pending
  | timeout
  | notFound
deriving DecidableEq, Repr

/-- An approval request file: the `expires_at` timestamp parsed from its
embedded metadata JSON (`none` when the metadata is unreadable), and the
file's modification time.  Times are in seconds. -/
structure ApprovalFile where
  expires_at : Option Nat
  mtime : Nat
deriving DecidableEq, Repr

/-- The three per-action-id file slots of the directory protocol:
`Pending_Approval/<id>.md`, `Approved/<id>.md`, `Rejected/<id>.md`. -/
structure ApprovalState where
  pending : Option ApprovalFile
  approved : Option ApprovalFile
  rejected : Option ApprovalFile
deriving DecidableEq, Repr

/-- Number of files that exist for the action id across the three dirs. -/
def ApprovalState.countFiles (st : ApprovalState) : Nat :=
  (if st.pending.isSome then 1 else 0) +
  (if st.approved.isSome then 1 else 0) +
  (if st.rejected.isSome then 1 else 0)

/-- `ApprovalWorkflow._is_expired(approval_file)` at time `now`: when the
embedded `expires_at` parses, expired iff `now > expires_at`; otherwise fall
back to the file age exceeding `timeout_hours` (the Python compares
`(now - mtime) / 3600 > timeout_hours` over floats, i.e. the age in seconds
exceeds `timeout_hours * 3600`). -/
def is_expired (timeout_hours : Nat) (f : ApprovalFile) (now : Nat) : Bool :=
  match f.expires_at with
  | some e => now > e
  | none => now - f.mtime > timeout_hours * 3600

/-- `ApprovalWorkflow.check_approval_status(action_id)` at time `now`:
returns the status and the (possibly updated) directory state; the update is
the `pending_file.rename(rejected_file)` relocation on expiry. -/
def check_approval_status (timeout_hours : Nat) (st : ApprovalState)
    (now : Nat) : ApprovalStatus × ApprovalState :=
  if st.approved.isSome then (ApprovalStatus.approved, st)
  else if st.rejected.isSome then (ApprovalStatus.rejected, st)
  else
    match st.pending with
    | some f =>
      if is_expired timeout_hours f now then
        (ApprovalStatus.timeout, { st with pending := none, rejected := some f })
      else
        (ApprovalStatus.pending, st)
    | none => (ApprovalStatus.notFound, st)

/-! ### event_queue.py -/

/-- The queue state: the filenames of the `*.json` files currently in the
active directory `AI_Employee_Vault/Needs_Action`. -/
def QueueFiles := List String

/-- Lexicographic (code-point) order on character lists, as Python compares
strings when `sorted()` is applied to filenames. -/
def strLtB : List Char → List Char → Bool
  | [], [] => false
  | [], _ :: _ => true
  | _ :: _, [] => false
  | a :: as, b :: bs =>
    if a.toNat < b.toNat then true
    else if b.toNat < a.toNat then false
    else strLtB as bs

/-- Python `a < b` on strings. -/
def pyStrLt (a b : String) : Bool := strLtB a.data b.data

/-- `sorted(files)[0]`: the lexicographically smallest filename. -/
def firstSorted : List String → Option String
  | [] => none
  | f :: rest => some (rest.foldl (fun a b => if pyStrLt b a then b else a) f)

/-- `EventQueue.pop()`: lists the queue files sorted by name and returns the
first (its parsed event together with its path), or `none` when empty.
Reading has no side effect on the directory: the state is unchanged. -/
def EventQueue.pop (files : List String) : Option String :=
  firstSorted files

/-! ### step_executor.py

`StepExecutor.execute_step` is embedded with:
* `attempts n` — the outcome of the `n`-th invocation of `step_function`
  (`none` = returns normally, `some err` = raises with message `err`);
* `approvalTrace` — the successive results of
  `approval_workflow.check_approval_status` observed by the bounded polling
  loop `_wait_for_approval` (one entry per poll that fits within `max_wait`).
The result records the return value, how many times the action was invoked,
the recorded backoff delays, and the statuses passed to
`plan_generator.update_step_status` in order. -/

/-- Python truthiness of the `Optional[str]` argument `action_type` as used in
`if requires_risk_check and action_type:` — `None` and `''` are falsy. -/
def pyTruthy : Option String → Bool
  | none => false
  | some s => !(s == "")

/-- `StepExecutor._wait_for_approval` on the trace of poll results: the loop
returns `True` on `approved`, `False` on `rejected` or `timeout`, keeps
polling on anything else (`pending`, `not_found`), and returns `False` when
the bounded wait elapses with no decisive status (trace exhausted). -/
def waitForApproval : List ApprovalStatus → Bool
  | [] => false
  | s :: rest =>
    if s = ApprovalStatus.approved then true
    else if s = ApprovalStatus.rejected ∨ s = ApprovalStatus.timeout then false
    else waitForApproval rest

/-- Outcome of the retry loop of `execute_step` (lines 122-201):
return value, number of invocations of `step_function`, recorded
`time.sleep` delays, and statuses passed to `update_step_status`. -/
structure RetryResult where
  success : Bool
  error : Option String
  invocations : Nat
  delays : List Nat
  statusUpdates : List String
deriving DecidableEq, Repr

/-- The `for attempt in range(1, max_retries + 1)` loop, with `attempt` the
current 1-based attempt number and `remaining` the attempts left (including
the current one).  On success: status `completed`; on a non-final exception:
status `in_progress` (retry note), sleep `base_retry_delay * 3^(attempt-1)`;
on the final exception: status `failed`.  With `remaining = 0` the loop body
never runs and the trailing `return False, "Unknown error"` is reached. -/
def retryLoop (base_retry_delay : Nat) (attempts : Nat → Option String) :
    Nat → Nat → RetryResult
  | _, 0 => ⟨false, some "Unknown error", 0, [], []⟩
  | attempt, remaining + 1 =>
    match attempts attempt with
    | none => ⟨true, none, 1, [], ["completed"]⟩
    | some err =>
      if remaining = 0 then
        ⟨false, some err, 1, [], ["failed"]⟩
      else
        let rest := retryLoop base_retry_delay attempts (attempt + 1) remaining
        ⟨rest.success, rest.error, rest.invocations + 1,
          base_retry_delay * 3 ^ (attempt - 1) :: rest.delays,
          "in_progress" :: rest.statusUpdates⟩

/-- The retry phase of `execute_step`: attempts start at 1 and at most
`max_retries` are made. -/
def runRetryPhase (max_retries base_retry_delay : Nat)
    (attempts : Nat → Option String) : RetryResult :=
  retryLoop base_retry_delay attempts 1 max_retries

/-- Observable outcome of `StepExecutor.execute_step`: the returned
`(success, error)` pair, invocation/delay/status traces, whether
`risk_classifier.classify` was called and whether
`approval_workflow.request_approval` was called. -/
structure StepResult where
  success : Bool
  error : Option String
  invocations : Nat
  delays : List Nat
  statusUpdates : List String
  riskComputed : Bool
  approvalRequested : Bool
deriving DecidableEq, Repr

/-- `StepExecutor.execute_step`.  The initial `update_step_status(step_id,
'in_progress', "Starting execution...")` contributes the leading
`"in_progress"`; when `_check_risk_and_approval` requests approval it adds a
second `"in_progress"` ("Waiting for approval"); a denied or timed-out wait
adds `"failed"` and returns `(False, "Approval rejected or timeout")` without
ever invoking `step_function`. -/
def execute_step (max_retries base_retry_delay : Nat)
    (requires_risk_check : Bool) (action_type : Option String)
    (step_description : String) (action_metadata : RCMetadata)
    (approvalTrace : List ApprovalStatus)
    (attempts : Nat → Option String) : StepResult :=
  if requires_risk_check && pyTruthy action_type then
    let risk_level := (classify (action_type.getD "") step_description action_metadata).1
    if risk_level = RiskLevel.medium ∨ risk_level = RiskLevel.high then
      if waitForApproval approvalTrace then
        let r := runRetryPhase max_retries base_retry_delay attempts
        ⟨r.success, r.error, r.invocations, r.delays,
          "in_progress" :: "in_progress" :: r.statusUpdates, true, true⟩
      else
        ⟨false, some "Approval rejected or timeout", 0, [],
          ["in_progress", "in_progress", "failed"], true, true⟩
    else
      let r := runRetryPhase max_retries base_retry_delay attempts
      ⟨r.success, r.error, r.invocations, r.delays,
        "in_progress" :: r.statusUpdates, true, false⟩
  else
    let r := runRetryPhase max_retries base_retry_delay attempts
    ⟨r.success, r.error, r.invocations, r.delays,
      "in_progress" :: r.statusUpdates, false, false⟩

/-! ### orchestrator.py — processing of one popped event

The vault directories are modelled by the lists of filenames they hold.
Python exceptions propagating out of `_execute_with_plan` / `_execute_simple`
are modelled by `Except.error`; the `except` handler of
`_process_event_queue` catches them and moves the popped event file to
`Done`. -/

/-- The directory state the event-processing loop touches, as filename
lists: the active queue `Needs_Action`, the terminal `Done`, the event files
in `Pending_Approval`, and the escalation artifacts that exist anywhere in
the vault. -/
structure VaultState where
  needsAction : List String
  done : List String
  pendingApproval : List String
  escalations : List String
deriving DecidableEq, Repr

/-- `EventQueue.move_to_done(event_file)`: rename the file from the active
directory into `Done/`. -/
def moveToDone (st : VaultState) (name : String) : VaultState :=
  { st with needsAction := st.needsAction.erase name,
            done := st.done ++ [name] }

/-- The orchestrator's calls `self.event_queue.move_to_done(event_file,
status='completed')` (orchestrator.py lines 318 and 418).
`EventQueue.move_to_done` takes no `status` parameter, so Python raises
`TypeError` before any file is moved. -/
def moveToDoneStatusKw (_ : VaultState) (_ : String) :
    Except String VaultState :=
  Except.error "TypeError: move_to_done() got an unexpected keyword argument 'status'"

/-- Python's rendering of `event.get('id')` inside the f-string
`f"AI_Employee_Vault/Needs_Action/{event_id}.json"`: a missing key formats
as the string `None`. -/
def pyFormatOpt : Option String → String
  | none => "None"
  | some s => s

/-- The fields of a queued event that the processing path reads.
`event_id` is the filename stem assigned by `EventQueue.push`
(`<timestamp>_<source>_<uuid>`); `idField` is the value of the *`id`* key,
which the orchestrator reads as `event.get('id')` — events pushed by the
queue carry `event_id` but no `id` key, so for them it is `none`. -/
structure QEvent where
  event_id : String
  idField : Option String
  content : String
  metaPriority : Option String
deriving DecidableEq, Repr

/-- `analysis.get('requires_approval', False)` in `_execute_simple`:
`TaskAnalyzer.analyze_event` never puts a `requires_approval` key into its
result dictionary, so the default `False` is always returned. -/
def analysisRequiresApproval (_ : Analysis) : Bool := false

/-- `Orchestrator._execute_with_plan(event, analysis)` after
`execute_plan` has returned `plan_success`.  On success it builds
`Needs_Action/{event.get('id')}.json`; only if that file exists does it call
`move_to_done(event_file, status='completed')`, which raises `TypeError`.
On failure it marks the plan failed and returns without touching any file.
(`execute_plan` itself catches per-step exceptions and returns a summary.) -/
def executeWithPlan (st : VaultState) (ev : QEvent) (plan_success : Bool) :
    Except String VaultState :=
  if plan_success then
    let fname := pyFormatOpt ev.idField ++ ".json"
    if fname ∈ st.needsAction then
      moveToDoneStatusKw st fname
    else
      Except.ok st
  else
    Except.ok st

/-- `Orchestrator._execute_simple(event, analysis)`.  The approval branch is
guarded by `analysis.get('requires_approval', False)`, which is always
`False` (see `analysisRequiresApproval`), so the action is executed
directly; `actionResult` is the outcome of `_execute_step_action`
(`none` = returns, `some err` = raises — the shipped placeholder only logs,
production would invoke a skill/MCP).  On a raise the handler logs and
re-raises; on success the same `event.get('id')`-based move as in the plan
path is attempted. -/
def executeSimple (st : VaultState) (ev : QEvent) (analysis : Analysis)
    (actionResult : Option String) : Except String VaultState :=
  if analysisRequiresApproval analysis then
    Except.ok st
  else
    match actionResult with
    | some err => Except.error err
    | none =>
      let fname := pyFormatOpt ev.idField ++ ".json"
      if fname ∈ st.needsAction then
        moveToDoneStatusKw st fname
      else
        Except.ok st

/-- One iteration of `Orchestrator._process_event_queue` after `pop()` has
returned `(event, event_file)`: analyze, route to plan or simple execution,
and on any propagating exception move the popped file to `Done`. -/
def processPoppedEvent (st : VaultState) (ev : QEvent) (plan_success : Bool)
    (actionResult : Option String) : VaultState :=
  let analysis := analyze_event ev.content ev.metaPriority
  let event_file := ev.event_id ++ ".json"
  let r :=
    if analysis.requires_plan then
      executeWithPlan st ev plan_success
    else
      executeSimple st ev analysis actionResult
  match r with
  | Except.ok st' => st'
  | Except.error _ => moveToDone st event_file

/-- `StepExecutor.create_escalation_task(step_id, description, error,
event_id)`: writes exactly one escalation artifact
`Needs_Action/escalation_<timestamp>.md` whose content references the
original event id and the error message.  (No caller exists anywhere in the
repository.) -/
def create_escalation_task (st : VaultState) (timestamp : String)
    (event_id : Option String) (error : String) : VaultState × String :=
  let name := "escalation_" ++ timestamp ++ ".md"
  let content := "**Event ID**: " ++ pyFormatOpt event_id ++
    " **Failure**: " ++ error
  ({ st with escalations := st.escalations ++ [name],
             needsAction := st.needsAction ++ [name] }, content)

/-! ## Shared lemmas -/

/-- A keyword scan finds nothing when no keyword occurs in the content. -/
lemma findKeyword_eq_none {kws : List String} {cl : String}
    (h : ∀ k ∈ kws, strContains cl k = false) : findKeyword kws cl = none := by
  unfold findKeyword
  rw [List.find?_eq_none]
  intro k hk
  simp [h k hk]

/-- `containsAny` is false when no keyword occurs in the content. -/
lemma containsAny_eq_false {kws : List String} {c : String}
    (h : ∀ k ∈ kws, strContains c k = false) : containsAny kws c = false := by
  unfold containsAny
  rw [List.any_eq_false]
  intro k hk
  simp [h k hk]

/-- One unfolding of the retry loop on a failing non-final attempt. -/
lemma retryLoop_step (bd : Nat) (att : Nat → Option String) (attempt r : Nat)
    (e : String) (herr : att attempt = some e) (hr : r ≠ 0) :
    retryLoop bd att attempt (r + 1) =
      ⟨(retryLoop bd att (attempt + 1) r).success,
       (retryLoop bd att (attempt + 1) r).error,
       (retryLoop bd att (attempt + 1) r).invocations + 1,
       bd * 3 ^ (attempt - 1) :: (retryLoop bd att (attempt + 1) r).delays,
       "in_progress" :: (retryLoop bd att (attempt + 1) r).statusUpdates⟩ := by
  simp only [retryLoop, herr, hr, if_false]

/-- Closed form of the retry loop when every attempt raises: `r` invocations,
the last error returned, backoff delays `bd * 3 ^ (attempt-1+k)` recorded
before each of the `r - 1` retries, and a final `failed` status. -/
lemma retryLoop_allFail (bd : Nat) (errs : Nat → String) :
    ∀ (r attempt : Nat), 1 ≤ attempt → 1 ≤ r →
      retryLoop bd (fun n => some (errs n)) attempt r =
        ⟨false, some (errs (attempt + r - 1)), r,
          (List.range (r - 1)).map (fun k => bd * 3 ^ (attempt - 1 + k)),
          List.replicate (r - 1) "in_progress" ++ ["failed"]⟩ := by
  intro r
  induction r with
  | zero => intro attempt _ hr; exact absurd hr (by omega)
  | succ r ih =>
    intro attempt ha _
    cases r with
    | zero => simp [retryLoop]
    | succ r' =>
      have hrest := ih (attempt + 1) (by omega) (by omega)
      rw [retryLoop_step bd _ attempt (r' + 1) (errs attempt) rfl (by omega), hrest]
      have hidx : attempt + 1 + (r' + 1) - 1 = attempt + (r' + 1 + 1) - 1 := by omega
      have hdel : (List.range (r' + 1)).map (fun k => bd * 3 ^ (attempt - 1 + k)) =
          bd * 3 ^ (attempt - 1) ::
            (List.range r').map (fun k => bd * 3 ^ (attempt + k)) := by
        rw [List.range_succ_eq_map, List.map_cons, List.map_map]
        refine congrArg₂ _ (by simp) (List.map_congr_left ?_)
        intro k _
        have : attempt - 1 + Nat.succ k = attempt + k := by omega
        simp [Function.comp, this]
      simp only [hidx, Nat.add_sub_cancel, Nat.succ_sub_one, hdel,
        List.replicate_succ, List.cons_append]

/-- A retry loop with at least one attempt available invokes the action at
least once. -/
lemma retryLoop_invocations_pos (bd : Nat) (att : Nat → Option String)
    (attempt r : Nat) (hr : 1 ≤ r) :
    1 ≤ (retryLoop bd att attempt r).invocations := by
  cases r with
  | zero => exact absurd hr (by omega)
  | succ r' =>
    simp only [retryLoop]
    cases h : att attempt with
    | none => simp
    | some err =>
      by_cases h0 : r' = 0 <;> simp [h0]

/-- Lexicographic string order is asymmetric. -/
lemma strLtB_asymm : ∀ (a b : List Char), strLtB a b = true → strLtB b a = false
  | [], [], h => by simp [strLtB] at h
  | [], _ :: _, _ => by simp [strLtB]
  | _ :: _, [], h => by simp [strLtB] at h
  | x :: xs, y :: ys, h => by
    simp only [strLtB] at h ⊢
    by_cases h1 : x.toNat < y.toNat
    · have h2 : ¬ y.toNat < x.toNat := by omega
      simp [h1, h2]
    · by_cases h2 : y.toNat < x.toNat
      · simp [h1, h2] at h
      · simp only [h1, h2, if_false] at h
        simp [h1, h2, strLtB_asymm xs ys h]

/-- The event-processing loop of the orchestrator never creates an
escalation artifact, on any input and in any branch: the `escalations`
component of the vault state is untouched (`create_escalation_task` has no
call site). -/
lemma processPoppedEvent_escalations (st : VaultState) (ev : QEvent)
    (p : Bool) (a : Option String) :
    (processPoppedEvent st ev p a).escalations = st.escalations := by
  unfold processPoppedEvent
  by_cases hp : (analyze_event ev.content ev.metaPriority).requires_plan
  · simp only [hp, if_true]
    unfold executeWithPlan moveToDoneStatusKw
    by_cases hps : p
    · simp only [hps, if_true]
      by_cases hm : (pyFormatOpt ev.idField ++ ".json") ∈ st.needsAction
      · simp [hm, moveToDone]
      · simp [hm]
    · simp [hps]
  · simp only [hp, if_false]
    unfold executeSimple analysisRequiresApproval moveToDoneStatusKw
    rcases a with _ | err
    · by_cases hm : (pyFormatOpt ev.idField ++ ".json") ∈ st.needsAction
      · simp [hm, moveToDone]
      · simp [hm]
    · simp [moveToDone]

/-! ## Claims -/

/-- C1: if `execute_step` is called with `requires_risk_check` true and a
non-empty `action_type` whose classified risk level is medium or high, and
the wait for approval does not end `approved` (rejected, timed out, or the
bounded wait elapses while pending — all the cases where
`waitForApproval` returns false), then the step is marked `failed`, the call
returns failure `(False, "Approval rejected or timeout")`, and the step's
action function is never invoked (zero invocations). -/
theorem unapproved_risky_step_blocked (mr bd : Nat) (a d : String) (m : RCMetadata)
    (trace : List ApprovalStatus) (att : Nat → Option String)
    (ha : a ≠ "")
    (hrisk : (classify a d m).1 = RiskLevel.medium ∨ (classify a d m).1 = RiskLevel.high)
    (hwait : waitForApproval trace = false) :
    execute_step mr bd true (some a) d m trace att =
      ⟨false, some "Approval rejected or timeout", 0, [],
        ["in_progress", "in_progress", "failed"], true, true⟩ := by
  have htruthy : pyTruthy (some a) = true := by simp [pyTruthy, ha]
  simp [execute_step, htruthy, Option.getD, hrisk, hwait]

/-- Witness for C1: a $600 payment step with the approval rejected. -/
theorem unapproved_risky_step_blocked_witness :
    execute_step 3 5 true (some "payment") "wire funds" ⟨600, false, "unknown"⟩
        [ApprovalStatus.rejected] (fun _ => none) =
      ⟨false, some "Approval rejected or timeout", 0, [],
        ["in_progress", "in_progress", "failed"], true, true⟩ :=
  unapproved_risky_step_blocked 3 5 "payment" "wire funds" ⟨600, false, "unknown"⟩
    [ApprovalStatus.rejected] (fun _ => none) (by decide)
    (Or.inr (by decide)) (by decide)

/-- C2: the orchestrator's processing of a popped event never creates an
escalation artifact — on every branch the escalation set is unchanged — and
in particular a standalone (non-plan) event whose action raises is moved to
`Done` with no escalation artifact, contradicting the claimed
escalation-on-exhaustion behaviour (`create_escalation_task` exists but is
never called). -/
theorem no_escalation_artifact_created (st : VaultState) (ev : QEvent)
    (p : Bool) (a : Option String) :
    (processPoppedEvent st ev p a).escalations = st.escalations ∧
    processPoppedEvent ⟨["20250101_100100_gmail_bbb222.json"], [], [], []⟩
        ⟨"20250101_100100_gmail_bbb222", none, "hello", none⟩ false (some "boom") =
      ⟨[], ["20250101_100100_gmail_bbb222.json"], [], []⟩ :=
  ⟨processPoppedEvent_escalations st ev p a, by decide⟩

/-- C3: a concrete event popped and processed successfully through the plan
path (an event pushed by `EventQueue.push`, which stores `event_id` but no
`id` key, so `event.get('id')` is `None` and the move targets the
non-existent `None.json`) is NOT relocated out of `Needs_Action`: the vault
state is unchanged and the event's file is still in the active queue,
contradicting the claimed relocation to a terminal directory. -/
theorem processed_event_stays_in_queue :
    processPoppedEvent ⟨["20250101_100000_gmail_aaa111.json"], [], [], []⟩
        ⟨"20250101_100000_gmail_aaa111", none, "pricing request", none⟩ true none =
      ⟨["20250101_100000_gmail_aaa111.json"], [], [], []⟩ ∧
    "20250101_100000_gmail_aaa111.json" ∈
      (processPoppedEvent ⟨["20250101_100000_gmail_aaa111.json"], [], [], []⟩
        ⟨"20250101_100000_gmail_aaa111", none, "pricing request", none⟩
        true none).needsAction := by
  decide

/-- C4: a step whose action raises on every attempt is attempted exactly
`max_retries` times, with delay `base_retry_delay * 3 ^ (attempt - 1)`
recorded before each retry (for the defaults, 5s and 15s before the 2nd and
3rd attempts), ends marked `failed` with the last error, returns failure,
and is never marked `completed`. -/
theorem retry_exhaustion_bound (mr bd : Nat) (hmr : 1 ≤ mr)
    (d : String) (m : RCMetadata) (errs : Nat → String) :
    execute_step mr bd false none d m [] (fun n => some (errs n)) =
      ⟨false, some (errs mr), mr,
        (List.range (mr - 1)).map (fun k => bd * 3 ^ k),
        "in_progress" :: (List.replicate (mr - 1) "in_progress" ++ ["failed"]),
        false, false⟩ ∧
    "completed" ∉
      (execute_step mr bd false none d m [] (fun n => some (errs n))).statusUpdates := by
  have hloop := retryLoop_allFail bd errs mr 1 (by omega) hmr
  have h1 : execute_step mr bd false none d m [] (fun n => some (errs n)) =
      ⟨false, some (errs mr), mr,
        (List.range (mr - 1)).map (fun k => bd * 3 ^ k),
        "in_progress" :: (List.replicate (mr - 1) "in_progress" ++ ["failed"]),
        false, false⟩ := by
    simp [execute_step, pyTruthy, runRetryPhase, hloop]
  refine ⟨h1, ?_⟩
  rw [h1]
  simp [List.mem_replicate]

/-- Witness for C4: the defaults (3 attempts, base delay 5s) with an action
that always raises "boom": 3 invocations, delays 5s and 15s, final status
`failed`, never `completed`. -/
theorem retry_exhaustion_bound_witness :
    execute_step 3 5 false none "step" ⟨0, false, "unknown"⟩ [] (fun _ => some "boom") =
      ⟨false, some "boom", 3, [5, 15],
        ["in_progress", "in_progress", "in_progress", "failed"], false, false⟩ ∧
    "completed" ∉
      (execute_step 3 5 false none "step" ⟨0, false, "unknown"⟩ []
        (fun _ => some "boom")).statusUpdates := by
  have h := retry_exhaustion_bound 3 5 (by decide) "step" ⟨0, false, "unknown"⟩
    (fun _ => "boom")
  exact ⟨h.1.trans (by decide), h.2⟩

/-- C5: an approval request whose only file is in `Pending_Approval` with an
embedded `expires_at` in the past transitions, on the first
`check_approval_status`, to the rejected directory with result `timeout`;
a repeated check returns `rejected` without further relocation (the
transition happens exactly once), and exactly one file exists for the
action id before and after. -/
theorem approval_expiry_once (th : Nat) (f : ApprovalFile) (e now : Nat)
    (hexp : f.expires_at = some e) (hpast : e < now) :
    check_approval_status th ⟨some f, none, none⟩ now =
      (ApprovalStatus.timeout, ⟨none, none, some f⟩) ∧
    check_approval_status th ⟨none, none, some f⟩ now =
      (ApprovalStatus.rejected, ⟨none, none, some f⟩) ∧
    ApprovalState.countFiles ⟨some f, none, none⟩ = 1 ∧
    ApprovalState.countFiles ⟨none, none, some f⟩ = 1 := by
  have hex : is_expired th f now = true := by
    simp [is_expired, hexp, hpast]
  refine ⟨?_, ?_, ?_, ?_⟩ <;>
    simp [check_approval_status, hex, ApprovalState.countFiles]

/-- Witness for C5: a request expiring at t=100 checked at t=200. -/
theorem approval_expiry_once_witness :
    check_approval_status 24 ⟨some ⟨some 100, 0⟩, none, none⟩ 200 =
      (ApprovalStatus.timeout, ⟨none, none, some ⟨some 100, 0⟩⟩) ∧
    check_approval_status 24 ⟨none, none, some ⟨some 100, 0⟩⟩ 200 =
      (ApprovalStatus.rejected, ⟨none, none, some ⟨some 100, 0⟩⟩) ∧
    ApprovalState.countFiles ⟨some ⟨some 100, 0⟩, none, none⟩ = 1 ∧
    ApprovalState.countFiles ⟨none, none, some ⟨some 100, 0⟩⟩ = 1 :=
  approval_expiry_once 24 ⟨some 100, 0⟩ 100 200 rfl (by decide)

/-- C6 counterexample: `pop()` has no removal side effect, so two calls in
sequence (with no relocation in between) observe the same directory state:
the second `pop` returns e1 again, not e2 — the claim as stated fails. -/
theorem pop_twice_without_relocation_cex :
    EventQueue.pop ["20250101_100000_gmail_aaa111.json",
                    "20250101_100005_gmail_bbb222.json"] =
      some "20250101_100000_gmail_aaa111.json" ∧
    EventQueue.pop ["20250101_100000_gmail_aaa111.json",
                    "20250101_100005_gmail_bbb222.json"] ≠
      some "20250101_100005_gmail_bbb222.json" := by
  decide

/-- C6 amended: `pop()` returns the event with the lexicographically
smallest filename (the older event e1); after the caller relocates that
file out of the active directory, the next `pop()` returns e2. -/
theorem pop_fifo_with_relocation (n1 n2 : String) (h : pyStrLt n1 n2 = true) :
    EventQueue.pop [n1, n2] = some n1 ∧
    EventQueue.pop (([n1, n2] : List String).erase n1) = some n2 := by
  have h' : pyStrLt n2 n1 = false := strLtB_asymm _ _ h
  constructor
  · simp [EventQueue.pop, firstSorted, h']
  · simp [List.erase_cons_head, EventQueue.pop, firstSorted]

/-- Witness for the amended C6: events created at 10:00:00 and 10:00:05. -/
theorem pop_fifo_with_relocation_witness :
    EventQueue.pop ["20250101_100000_gmail_aaa111.json",
                    "20250101_100005_gmail_bbb222.json"] =
      some "20250101_100000_gmail_aaa111.json" ∧
    EventQueue.pop ((["20250101_100000_gmail_aaa111.json",
                      "20250101_100005_gmail_bbb222.json"] : List String).erase
                    "20250101_100000_gmail_aaa111.json") =
      some "20250101_100005_gmail_bbb222.json" :=
  pop_fifo_with_relocation "20250101_100000_gmail_aaa111.json"
    "20250101_100005_gmail_bbb222.json" (by decide)

/-- C7: a payment whose metadata amount exceeds the high threshold of $500
classifies as high risk regardless of the content text and of the other
metadata fields; and a $10 payment to a known payee whose content contains
none of the configured keywords classifies as low risk. -/
theorem payment_amount_risk (content : String) (m : RCMetadata)
    (hamt : m.amount > 500)
    (content2 ch : String)
    (hH : ∀ k ∈ HIGH_RISK_KEYWORDS, strContains (pyLower content2) k = false)
    (hM : ∀ k ∈ MEDIUM_RISK_KEYWORDS, strContains (pyLower content2) k = false)
    (hS : ∀ k ∈ SENSITIVE_CONTEXTS, strContains (pyLower content2) k = false) :
    (classify "payment" content m).1 = RiskLevel.high ∧
    (classify "payment" content2 ⟨10, false, ch⟩).1 = RiskLevel.low := by
  constructor
  · unfold classify
    cases hfk : findKeyword HIGH_RISK_KEYWORDS (pyLower content) with
    | some k => simp [hfk]
    | none =>
      have hcond : ("payment" : String) = "payment" ∧ m.amount > PAYMENT_THRESHOLD_HIGH :=
        ⟨rfl, by simpa [PAYMENT_THRESHOLD_HIGH] using hamt⟩
      simp [hfk, hcond]
  · unfold classify
    simp [findKeyword_eq_none hH, findKeyword_eq_none hM, findKeyword_eq_none hS,
      PAYMENT_THRESHOLD_HIGH, PAYMENT_THRESHOLD_MEDIUM]

/-- Witness for C7: a $600 payment and a $10 keyword-free payment. -/
theorem payment_amount_risk_witness :
    (classify "payment" "wire funds" ⟨600, false, "unknown"⟩).1 = RiskLevel.high ∧
    (classify "payment" "hello" ⟨10, false, "unknown"⟩).1 = RiskLevel.low :=
  payment_amount_risk "wire funds" ⟨600, false, "unknown"⟩ (by decide)
    "hello" "unknown" (by decide) (by decide) (by decide)

/-- C8 counterexample: a `file_delete` action whose content contains the
medium-risk keyword `send` (and no high-risk keyword) classifies as medium,
not high — the medium-keyword scan runs before the `file_delete` rule, so
the claim as stated fails. -/
theorem file_delete_shadowed_by_medium_keyword_cex :
    (classify "file_delete" "send the file" ⟨0, false, "unknown"⟩).1 =
      RiskLevel.medium ∧
    (classify "file_delete" "send the file" ⟨0, false, "unknown"⟩).1 ≠
      RiskLevel.high := by
  decide

/-- C8 amended: a `file_delete` action classifies as high risk provided its
content contains no medium-risk keyword and no sensitive-context keyword
(contents with a high-risk keyword are still high). -/
theorem file_delete_high_unless_medium_keyword (content : String) (m : RCMetadata)
    (hM : ∀ k ∈ MEDIUM_RISK_KEYWORDS, strContains (pyLower content) k = false)
    (hS : ∀ k ∈ SENSITIVE_CONTEXTS, strContains (pyLower content) k = false) :
    (classify "file_delete" content m).1 = RiskLevel.high := by
  unfold classify
  cases hfk : findKeyword HIGH_RISK_KEYWORDS (pyLower content) with
  | some k => simp [hfk]
  | none =>
    simp [hfk, findKeyword_eq_none hM, findKeyword_eq_none hS]

/-- Witness for the amended C8. -/
theorem file_delete_high_unless_medium_keyword_witness :
    (classify "file_delete" "old logs" ⟨0, false, "unknown"⟩).1 = RiskLevel.high :=
  file_delete_high_unless_medium_keyword "old logs" ⟨0, false, "unknown"⟩
    (by decide) (by decide)

/-- C9: an event whose content contains the sales keyword `pricing` and none
of the routine, complaint, or urgent keywords analyzes to category `sales`,
priority `high`, complexity `complex`, and `requires_plan` true. -/
theorem sales_pricing_analysis (content : String) (mp : Option String)
    (hp : strContains (pyLower content) "pricing" = true)
    (hr : ∀ k ∈ routine_keywords, strContains (pyLower content) k = false)
    (hc : ∀ k ∈ complaint_keywords, strContains (pyLower content) k = false)
    (hu : ∀ k ∈ urgent_keywords, strContains (pyLower content) k = false) :
    analyze_event content mp = ⟨"sales", "high", "complex", true⟩ := by
  have hsales : containsAny sales_keywords (pyLower content) = true := by
    unfold containsAny
    rw [List.any_eq_true]
    exact ⟨"pricing", by simp [sales_keywords], hp⟩
  simp [analyze_event, classify_category, classify_priority, classify_complexity,
    containsAny_eq_false hr, containsAny_eq_false hc, containsAny_eq_false hu, hsales]

/-- Witness for C9. -/
theorem sales_pricing_analysis_witness :
    analyze_event "pricing please" none = ⟨"sales", "high", "complex", true⟩ :=
  sales_pricing_analysis "pricing please" none (by decide) (by decide) (by decide)
    (by decide)

/-- C10: calling `execute_step` with `requires_risk_check` true but
`action_type` absent (`None` or the empty string) skips the entire risk and
approval gate: no risk level is computed, no approval request is created,
and the action function is executed immediately — the result is exactly
that of the bare retry phase. -/
theorem missing_action_type_skips_gate (mr bd : Nat) (aT : Option String)
    (d : String) (m : RCMetadata) (trace : List ApprovalStatus)
    (att : Nat → Option String)
    (hT : aT = none ∨ aT = some "") (hmr : 1 ≤ mr) :
    execute_step mr bd true aT d m trace att =
      ⟨(runRetryPhase mr bd att).success, (runRetryPhase mr bd att).error,
        (runRetryPhase mr bd att).invocations, (runRetryPhase mr bd att).delays,
        "in_progress" :: (runRetryPhase mr bd att).statusUpdates, false, false⟩ ∧
    (execute_step mr bd true aT d m trace att).riskComputed = false ∧
    (execute_step mr bd true aT d m trace att).approvalRequested = false ∧
    1 ≤ (execute_step mr bd true aT d m trace att).invocations := by
  have htruthy : pyTruthy aT = false := by
    rcases hT with h | h <;> simp [h, pyTruthy]
  have h1 : execute_step mr bd true aT d m trace att =
      ⟨(runRetryPhase mr bd att).success, (runRetryPhase mr bd att).error,
        (runRetryPhase mr bd att).invocations, (runRetryPhase mr bd att).delays,
        "in_progress" :: (runRetryPhase mr bd att).statusUpdates, false, false⟩ := by
    simp [execute_step, htruthy]
  refine ⟨h1, ?_, ?_, ?_⟩ <;> rw [h1]
  exact retryLoop_invocations_pos bd att 1 mr hmr

/-- Witness for C10: `action_type = None` with a succeeding action — the
action runs immediately and no risk/approval machinery is touched. -/
theorem missing_action_type_skips_gate_witness :
    execute_step 3 5 true none "step" ⟨0, false, "unknown"⟩ [] (fun _ => none) =
      ⟨true, none, 1, [], ["in_progress", "completed"], false, false⟩ ∧
    (execute_step 3 5 true none "step" ⟨0, false, "unknown"⟩ []
      (fun _ => none)).riskComputed = false ∧
    (execute_step 3 5 true none "step" ⟨0, false, "unknown"⟩ []
      (fun _ => none)).approvalRequested = false ∧
    1 ≤ (execute_step 3 5 true none "step" ⟨0, false, "unknown"⟩ []
      (fun _ => none)).invocations := by
  have h := missing_action_type_skips_gate 3 5 none "step" ⟨0, false, "unknown"⟩ []
    (fun _ => none) (Or.inl rfl) (by decide)
  exact ⟨h.1.trans (by decide), h.2.1, h.2.2.1, h.2.2.2⟩

end AIEmployee
